import Mathlib

/-!
Shallow embedding of the snaps UI core: the component schema model
(`packages/snaps-ui`, validated with superstruct) and the state reducer
`constructState` (`packages/snaps-controllers/src/interface/utils.ts`).

The data model mirrors the source:
  * `Component` is the closed union of the nine node kinds.
  * `ComponentState` is a JS object mapping string keys to either strings
    or nested objects; it is modelled as an ordered association list, and
    the JS spread-update `{...state, [k]: v}` as `setKey` (an existing key
    keeps its position, a new key is appended).
  * `RawValue` models an arbitrary JSON-ish value handed to validation,
    and the `validate*` functions mirror the superstruct structs
    (`object` rejects unknown keys, `literal`/`string`/`optional`/`array`/
    `union` as in superstruct).
-/

set_option autoImplicit false

namespace Snaps

/-- A value stored in a `ComponentState`: either a plain string (an Input's
value) or a nested mapping (the state derived from one Form's children). -/
inductive StateValue where
  | str (s : String)
  | obj (entries : List (String × StateValue))
  deriving Repr

/-- `ComponentState`: a JS object from string keys to state values, modelled
as an ordered association list. -/
abbrev ComponentState := List (String × StateValue)

/-- Key membership in a state object. -/
def hasKey (m : ComponentState) (k : String) : Bool :=
  m.any (fun p => p.1 == k)

/-- Lookup of a key in a state object (first occurrence). -/
def getVal : ComponentState → String → Option StateValue
  | [], _ => none
  | (k', v) :: rest, k => if k' == k then some v else getVal rest k

/-- The JS spread-update `{...state, [k]: v}`: if `k` is already a key its
value is replaced in place, otherwise the entry is appended at the end. -/
def setKey (m : ComponentState) (k : String) (v : StateValue) : ComponentState :=
  if hasKey m k then m.map (fun p => if p.1 == k then (k, v) else p)
  else m ++ [(k, v)]

/-- `ButtonVariants` from the schema model. -/
inductive ButtonVariant where
  | primary
  | secondary
  deriving Repr, DecidableEq

/-- `ButtonTypes` from the schema model. -/
inductive ButtonKind where
  | button
  | submit
  deriving Repr, DecidableEq

/-- `InputTypes` from the schema model. -/
inductive InputType where
  | text
  | number
  | password
  | search
  deriving Repr, DecidableEq

/-- The fields of a validated Button node (besides its `type` tag). -/
structure ButtonData where
  value : String
  variant : Option ButtonVariant
  buttonType : Option ButtonKind
  name : Option String
  deriving Repr, DecidableEq

/-- The fields of a validated Input node (besides its `type` tag). -/
structure InputData where
  value : Option String
  name : String
  inputType : Option InputType
  placeholder : Option String
  label : Option String
  deriving Repr, DecidableEq

/-- `FormComponent = Input | Button`: the only kinds allowed as Form
children. -/
inductive FormComponent where
  | input (data : InputData)
  | button (data : ButtonData)
  deriving Repr, DecidableEq

/-- The closed `Component` union of the nine node kinds. -/
inductive Component where
  | copyable (value : String)
  | divider
  | heading (value : String)
  | panel (children : List Component)
  | spinner
  | text (value : String)
  | button (data : ButtonData)
  | input (data : InputData)
  | form (name : String) (children : List FormComponent)
  deriving Repr

/-- A Form child, viewed as a member of the full `Component` union (this is
the inclusion `Input | Button ⊆ Component` that the source leaves
implicit when `constructState` recurses into a Form's children). -/
def FormComponent.toComponent : FormComponent → Component
  | .input d => .input d
  | .button d => .button d

/-- The inner reduce of the Form branch of `constructState`:
`children.reduce((acc, node) => constructState(acc, node), {})` where every
`node` is an Input or a Button.  On an Input, `constructState` performs
`{...acc, [node.name]: node.value ?? ''}`; on a Button it returns the
accumulator unchanged; this helper applies those two cases directly.
`constructFormState_eq_foldl` proves it equal to the literal fold of
`constructState` over the injected children. -/
def constructFormState : ComponentState → List FormComponent → ComponentState
  | state, [] => state
  | state, .input d :: cs =>
      constructFormState (setKey state d.name (.str (d.value.getD ""))) cs
  | state, .button _ :: cs => constructFormState state cs

mutual

/-- `constructState` from `snaps-controllers/src/interface/utils.ts`:
dispatch on the node's type; Panel folds its children through the outer
accumulator; Form sets `state[name]` to the state folded over its own
children from an empty accumulator; Input sets `state[name] = value ?? ''`;
every other kind returns the accumulator unchanged. -/
def constructState (state : ComponentState) : Component → ComponentState
  | .panel children => constructStateList state children
  | .form name children =>
      setKey state name (.obj (constructFormState [] children))
  | .input d => setKey state d.name (.str (d.value.getD ""))
  | _ => state

/-- The Panel branch's `children.reduce((acc, node) => constructState(acc,
node), state)`, written recursively. -/
def constructStateList (state : ComponentState) : List Component → ComponentState
  | [] => state
  | c :: cs => constructStateList (constructState state c) cs

end

mutual

/-- The names written into the *outer* accumulator when reducing a
component: an Input writes `input.name`, a Form writes `form.name` (its
children only touch the Form's fresh inner accumulator), a Panel writes
whatever its children write, and every other kind writes nothing. -/
def topNames : Component → List String
  | .panel cs => topNamesList cs
  | .form n _ => [n]
  | .input d => [d.name]
  | _ => []

/-- `topNames` over a list of children, concatenated in order. -/
def topNamesList : List Component → List String
  | [] => []
  | c :: cs => topNames c ++ topNamesList cs

end

/-- The names of the Input children of a Form, in order; Button children
contribute nothing. -/
def inputNames : List FormComponent → List String
  | [] => []
  | .input d :: cs => d.name :: inputNames cs
  | .button _ :: cs => inputNames cs

/-- A raw (untrusted) JSON-ish value handed to superstruct validation. -/
inductive RawValue where
  | str (s : String)
  | num (n : Int)
  | bool (b : Bool)
  | null
  | arr (xs : List RawValue)
  | obj (fields : List (String × RawValue))
  deriving Repr

/-- First-match lookup of a key among an object's fields; `none` models a
missing key (`undefined`). -/
def lookupField : List (String × RawValue) → String → Option RawValue
  | [], _ => none
  | (k', v) :: rest, k => if k' == k then some v else lookupField rest k

/-- superstruct `object(...)` rejects keys outside the declared schema;
this checks that every present key is declared. -/
def keysIn (fields : List (String × RawValue)) (allowed : List String) : Bool :=
  fields.all (fun p => allowed.contains p.1)

/-- superstruct `literal(s)` on a field that may be absent. -/
def litStr (s : String) : Option RawValue → Bool
  | some (.str t) => t == s
  | _ => false

/-- superstruct `string()` on a field that may be absent: the field must be
present and a string. -/
def reqStr : Option RawValue → Bool
  | some (.str _) => true
  | _ => false

/-- superstruct `optional(string())`: absent, or present and a string. -/
def optStr : Option RawValue → Bool
  | none => true
  | some (.str _) => true
  | _ => false

/-- superstruct `optional(union([literal(s1), ..., literal(sn)]))` for
string literals: absent, or present and one of the given strings. -/
def optLitOf (lits : List String) : Option RawValue → Bool
  | none => true
  | some (.str t) => lits.contains t
  | _ => false

/-- `CopyableStruct`: `{type: literal('copyable'), value: string()}`. -/
def validateCopyable : RawValue → Bool
  | .obj fields =>
      litStr "copyable" (lookupField fields "type") &&
      reqStr (lookupField fields "value") &&
      keysIn fields ["type", "value"]
  | _ => false

/-- `DividerStruct`: `{type: literal('divider')}`. -/
def validateDivider : RawValue → Bool
  | .obj fields =>
      litStr "divider" (lookupField fields "type") &&
      keysIn fields ["type"]
  | _ => false

/-- `HeadingStruct`: `{type: literal('heading'), value: string()}`. -/
def validateHeading : RawValue → Bool
  | .obj fields =>
      litStr "heading" (lookupField fields "type") &&
      reqStr (lookupField fields "value") &&
      keysIn fields ["type", "value"]
  | _ => false

/-- `SpinnerStruct`: `{type: literal('spinner')}`. -/
def validateSpinner : RawValue → Bool
  | .obj fields =>
      litStr "spinner" (lookupField fields "type") &&
      keysIn fields ["type"]
  | _ => false

/-- `TextStruct`: `{type: literal('text'), value: string()}`. -/
def validateText : RawValue → Bool
  | .obj fields =>
      litStr "text" (lookupField fields "type") &&
      reqStr (lookupField fields "value") &&
      keysIn fields ["type", "value"]
  | _ => false

/-- `ButtonStruct`: `{type: literal('button'), value: string(),
variant: optional(primary|secondary), buttonType: optional(button|submit),
name: optional(string())}`. -/
def validateButton : RawValue → Bool
  | .obj fields =>
      litStr "button" (lookupField fields "type") &&
      reqStr (lookupField fields "value") &&
      optLitOf ["primary", "secondary"] (lookupField fields "variant") &&
      optLitOf ["button", "submit"] (lookupField fields "buttonType") &&
      optStr (lookupField fields "name") &&
      keysIn fields ["type", "value", "variant", "buttonType", "name"]
  | _ => false

/-- `InputStruct`: `{type: literal('input'), value: optional(string()),
name: string(), inputType: optional(text|password|number|search),
placeholder: optional(string()), label: optional(string())}`. -/
def validateInput : RawValue → Bool
  | .obj fields =>
      litStr "input" (lookupField fields "type") &&
      optStr (lookupField fields "value") &&
      reqStr (lookupField fields "name") &&
      optLitOf ["text", "password", "number", "search"]
        (lookupField fields "inputType") &&
      optStr (lookupField fields "placeholder") &&
      optStr (lookupField fields "label") &&
      keysIn fields ["type", "value", "name", "inputType", "placeholder", "label"]
  | _ => false

/-- `FormComponentStruct = union([InputStruct, ButtonStruct])`: the only
shapes allowed as Form children. -/
def validateFormComponent (v : RawValue) : Bool :=
  validateInput v || validateButton v

/-- `FormStruct`: `{type: literal('form'),
children: array(FormComponentStruct), name: string()}`. -/
def validateForm : RawValue → Bool
  | .obj fields =>
      litStr "form" (lookupField fields "type") &&
      (match lookupField fields "children" with
        | some (.arr xs) => xs.all validateFormComponent
        | _ => false) &&
      reqStr (lookupField fields "name") &&
      keysIn fields ["type", "children", "name"]
  | _ => false

mutual

/-- `ComponentStruct`: the nine-branch superstruct union, tried in source
order (Copyable, Divider, Heading, Panel, Spinner, Text, Button, Input,
Form).  The Panel branch — `{type: literal('panel'),
children: array(lazy(ComponentStruct))}` — is inlined here because it is
the one recursive branch; `validatePanel` below names the same predicate
and `validateComponent_eq` restates this definition in terms of it. -/
def validateComponent : RawValue → Bool
  | .obj fields =>
      validateCopyable (.obj fields) ||
      validateDivider (.obj fields) ||
      validateHeading (.obj fields) ||
      (litStr "panel" (lookupField fields "type") &&
        panelChildrenOk fields &&
        keysIn fields ["type", "children"]) ||
      validateSpinner (.obj fields) ||
      validateText (.obj fields) ||
      validateButton (.obj fields) ||
      validateInput (.obj fields) ||
      validateForm (.obj fields)
  | _ => false

/-- Walks a Panel's fields to its `children` entry and validates it as
`array(lazy(ComponentStruct))`; a missing `children` key fails. -/
def panelChildrenOk : List (String × RawValue) → Bool
  | [] => false
  | (k, v) :: rest =>
      if k == "children" then panelChildrenArr v else panelChildrenOk rest

/-- `array(lazy(ComponentStruct))`: an array whose members all validate as
Components. -/
def panelChildrenArr : RawValue → Bool
  | .arr xs => allComponentsOk xs
  | _ => false

/-- Every member of the list validates as a Component. -/
def allComponentsOk : List RawValue → Bool
  | [] => true
  | x :: xs => validateComponent x && allComponentsOk xs

end

/-- `PanelStruct`: `{type: literal('panel'),
children: array(lazy(ComponentStruct))}`. -/
def validatePanel : RawValue → Bool
  | .obj fields =>
      litStr "panel" (lookupField fields "type") &&
      panelChildrenOk fields &&
      keysIn fields ["type", "children"]
  | _ => false

/-- The nine type tags of the closed Component union. -/
def componentTags : List String :=
  ["copyable", "divider", "heading", "panel", "spinner", "text", "button",
    "input", "form"]

/-- The declared field contract (allowed keys) of each node kind, by tag. -/
def contractKeys : String → Option (List String)
  | "copyable" => some ["type", "value"]
  | "divider" => some ["type"]
  | "heading" => some ["type", "value"]
  | "panel" => some ["type", "children"]
  | "spinner" => some ["type"]
  | "text" => some ["type", "value"]
  | "button" => some ["type", "value", "variant", "buttonType", "name"]
  | "input" => some ["type", "value", "name", "inputType", "placeholder", "label"]
  | "form" => some ["type", "children", "name"]
  | _ => none

theorem constructStateList_eq_foldl (cs : List Component) :
    ∀ state, constructStateList state cs = cs.foldl constructState state := by
  induction cs with
  | nil => intro state; rfl
  | cons c cs ih =>
      intro state
      rw [constructStateList, List.foldl_cons, ih]

theorem constructFormState_eq_foldl (cs : List FormComponent) :
    ∀ state,
      constructFormState state cs
        = cs.foldl (fun acc c => constructState acc c.toComponent) state := by
  induction cs with
  | nil => intro state; rfl
  | cons c cs ih =>
      intro state
      cases c with
      | input d =>
          rw [constructFormState, List.foldl_cons, ih]
          rfl
      | button d =>
          rw [constructFormState, List.foldl_cons, ih]
          rfl

theorem hasKey_nil (k : String) : hasKey [] k = false := rfl

theorem hasKey_cons (k1 : String) (v1 : StateValue) (m : ComponentState) (k : String) :
    hasKey ((k1, v1) :: m) k = ((k1 == k) || hasKey m k) := rfl

theorem getVal_nil (k : String) : getVal [] k = none := rfl

theorem getVal_cons (k1 : String) (v1 : StateValue) (m : ComponentState) (k : String) :
    getVal ((k1, v1) :: m) k = if k1 == k then some v1 else getVal m k := rfl

theorem hasKey_map_set (m : ComponentState) (k k' : String) (v : StateValue) :
    hasKey (m.map (fun p => if p.1 == k then (k, v) else p)) k' = hasKey m k' := by
  induction m with
  | nil => rfl
  | cons p m ih =>
      obtain ⟨k1, v1⟩ := p
      rw [List.map_cons]
      by_cases h : (k1 == k) = true
      · rw [if_pos h, hasKey_cons, hasKey_cons, ih]
        have hk1 : k1 = k := by simpa using h
        rw [hk1]
      · rw [if_neg h, hasKey_cons, hasKey_cons, ih]

theorem hasKey_setKey (m : ComponentState) (k k' : String) (v : StateValue) :
    hasKey (setKey m k v) k' = (hasKey m k' || (k == k')) := by
  unfold setKey
  by_cases h : hasKey m k = true
  · rw [if_pos h, hasKey_map_set]
    by_cases h' : k = k'
    · subst h'
      rw [h, Bool.true_or]
    · rw [show (k == k') = false by simpa using h', Bool.or_false]
  · rw [if_neg h]
    unfold hasKey
    rw [List.any_append, List.any_cons, List.any_nil, Bool.or_false]

theorem getVal_map_set_of_ne (m : ComponentState) (k k' : String) (v : StateValue)
    (hne : k ≠ k') :
    getVal (m.map (fun p => if p.1 == k then (k, v) else p)) k' = getVal m k' := by
  induction m with
  | nil => rfl
  | cons p m ih =>
      obtain ⟨k1, v1⟩ := p
      rw [List.map_cons]
      by_cases h : (k1 == k) = true
      · have hk1 : k1 = k := by simpa using h
        rw [if_pos h, getVal_cons, getVal_cons,
          if_neg (show ¬((k == k') = true) by simpa using hne),
          if_neg (show ¬((k1 == k') = true) by simp [hk1, hne])]
        exact ih
      · rw [if_neg h, getVal_cons, getVal_cons]
        by_cases h' : (k1 == k') = true
        · rw [if_pos h', if_pos h']
        · rw [if_neg h', if_neg h']
          exact ih

theorem getVal_append_ne (m : ComponentState) (k k' : String) (v : StateValue)
    (hne : k ≠ k') :
    getVal (m ++ [(k, v)]) k' = getVal m k' := by
  induction m with
  | nil =>
      rw [List.nil_append, getVal_cons, getVal_nil,
        if_neg (show ¬((k == k') = true) by simpa using hne)]
  | cons p m ih =>
      obtain ⟨k1, v1⟩ := p
      rw [List.cons_append, getVal_cons, getVal_cons]
      by_cases h' : (k1 == k') = true
      · rw [if_pos h', if_pos h']
      · rw [if_neg h', if_neg h']
        exact ih

theorem getVal_setKey_ne (m : ComponentState) (k k' : String) (v : StateValue)
    (hne : k ≠ k') :
    getVal (setKey m k v) k' = getVal m k' := by
  unfold setKey
  by_cases h : hasKey m k = true
  · rw [if_pos h]
    exact getVal_map_set_of_ne m k k' v hne
  · rw [if_neg h]
    exact getVal_append_ne m k k' v hne

theorem getVal_setKey_same (m : ComponentState) (k : String) (v : StateValue) :
    getVal (setKey m k v) k = some v := by
  unfold setKey
  by_cases h : hasKey m k = true
  · rw [if_pos h]
    induction m with
    | nil => exact absurd h (by rw [hasKey_nil]; exact Bool.false_ne_true)
    | cons p m ih =>
        obtain ⟨k1, v1⟩ := p
        rw [List.map_cons]
        by_cases h1 : (k1 == k) = true
        · rw [if_pos h1, getVal_cons, if_pos (beq_self_eq_true k)]
        · have hf : (k1 == k) = false := by
            cases hb : (k1 == k) with
            | false => rfl
            | true => exact absurd hb h1
          rw [if_neg h1, getVal_cons, if_neg h1]
          rw [hasKey_cons, hf, Bool.false_or] at h
          exact ih h
  · rw [if_neg h]
    induction m with
    | nil =>
        rw [List.nil_append, getVal_cons, if_pos (beq_self_eq_true k)]
    | cons p m ih =>
        obtain ⟨k1, v1⟩ := p
        rw [hasKey_cons] at h
        have h1 : (k1 == k) = false := by
          cases hb : (k1 == k) with
          | false => rfl
          | true => exact absurd (by rw [hb, Bool.true_or]) h
        have h2 : ¬(hasKey m k = true) := by
          intro hm
          exact h (by rw [hm, Bool.or_true])
        rw [List.cons_append, getVal_cons, if_neg (by rw [h1]; exact Bool.false_ne_true)]
        exact ih h2

mutual

theorem hasKey_constructState (c : Component) :
    ∀ (state : ComponentState) (k : String), hasKey state k = true →
      hasKey (constructState state c) k = true := by
  cases c with
  | panel children =>
      intro state k h
      exact hasKey_constructStateList children state k h
  | form n children =>
      intro state k h
      show hasKey (setKey state n _) k = true
      rw [hasKey_setKey, h, Bool.true_or]
  | input d =>
      intro state k h
      show hasKey (setKey state d.name _) k = true
      rw [hasKey_setKey, h, Bool.true_or]
  | copyable v => exact fun _ _ h => h
  | divider => exact fun _ _ h => h
  | heading v => exact fun _ _ h => h
  | spinner => exact fun _ _ h => h
  | text v => exact fun _ _ h => h
  | button d => exact fun _ _ h => h

theorem hasKey_constructStateList (cs : List Component) :
    ∀ (state : ComponentState) (k : String), hasKey state k = true →
      hasKey (constructStateList state cs) k = true := by
  cases cs with
  | nil => exact fun _ _ h => h
  | cons c cs =>
      intro state k h
      exact hasKey_constructStateList cs (constructState state c) k
        (hasKey_constructState c state k h)

end

mutual

theorem getVal_constructState_notin (c : Component) :
    ∀ (state : ComponentState) (k : String), k ∉ topNames c →
      getVal (constructState state c) k = getVal state k := by
  cases c with
  | panel children =>
      intro state k h
      exact getVal_constructStateList_notin children state k h
  | form n children =>
      intro state k h
      refine getVal_setKey_ne state n k _ ?_
      intro hn
      exact h (by simp [topNames, hn])
  | input d =>
      intro state k h
      refine getVal_setKey_ne state d.name k _ ?_
      intro hn
      exact h (by simp [topNames, hn])
  | copyable v => exact fun _ _ _ => rfl
  | divider => exact fun _ _ _ => rfl
  | heading v => exact fun _ _ _ => rfl
  | spinner => exact fun _ _ _ => rfl
  | text v => exact fun _ _ _ => rfl
  | button d => exact fun _ _ _ => rfl

theorem getVal_constructStateList_notin (cs : List Component) :
    ∀ (state : ComponentState) (k : String), k ∉ topNamesList cs →
      getVal (constructStateList state cs) k = getVal state k := by
  cases cs with
  | nil => exact fun _ _ _ => rfl
  | cons c cs =>
      intro state k h
      rw [topNamesList, List.mem_append] at h
      push_neg at h
      rw [constructStateList,
        getVal_constructStateList_notin cs (constructState state c) k h.2,
        getVal_constructState_notin c state k h.1]

end

theorem hasKey_constructFormState (cs : List FormComponent) :
    ∀ (state : ComponentState) (k : String),
      (hasKey (constructFormState state cs) k = true
        ↔ (hasKey state k = true ∨ k ∈ inputNames cs)) := by
  induction cs with
  | nil =>
      intro state k
      rw [constructFormState, inputNames]
      simp
  | cons c cs ih =>
      intro state k
      cases c with
      | input d =>
          rw [constructFormState, inputNames, ih, hasKey_setKey]
          constructor
          · rintro (h | h)
            · rw [Bool.or_eq_true] at h
              rcases h with h | h
              · exact Or.inl h
              · exact Or.inr (List.mem_cons.mpr (Or.inl (show k = d.name by
                  have := (by simpa using h : d.name = k); exact this.symm)))
            · exact Or.inr (List.mem_cons.mpr (Or.inr h))
          · rintro (h | h)
            · exact Or.inl (by rw [h, Bool.true_or])
            · rcases List.mem_cons.mp h with h | h
              · exact Or.inl (by rw [show (d.name == k) = true by simp [h], Bool.or_true])
              · exact Or.inr h
      | button d =>
          rw [constructFormState, inputNames, ih]

theorem litStr_iff (s : String) (o : Option RawValue) :
    litStr s o = true ↔ o = some (.str s) := by
  cases o with
  | none => simp [litStr]
  | some v => cases v <;> simp [litStr]

theorem validateComponent_eq (v : RawValue) :
    validateComponent v =
      (validateCopyable v || validateDivider v || validateHeading v ||
        validatePanel v || validateSpinner v || validateText v ||
        validateButton v || validateInput v || validateForm v) := by
  cases v <;> rfl

theorem validateCopyable_tag {fields : List (String × RawValue)}
    (h : validateCopyable (.obj fields) = true) :
    lookupField fields "type" = some (.str "copyable") := by
  simp only [validateCopyable, Bool.and_eq_true] at h
  exact (litStr_iff _ _).mp h.1.1

theorem validateDivider_tag {fields : List (String × RawValue)}
    (h : validateDivider (.obj fields) = true) :
    lookupField fields "type" = some (.str "divider") := by
  simp only [validateDivider, Bool.and_eq_true] at h
  exact (litStr_iff _ _).mp h.1

theorem validateHeading_tag {fields : List (String × RawValue)}
    (h : validateHeading (.obj fields) = true) :
    lookupField fields "type" = some (.str "heading") := by
  simp only [validateHeading, Bool.and_eq_true] at h
  exact (litStr_iff _ _).mp h.1.1

theorem validatePanel_tag {fields : List (String × RawValue)}
    (h : validatePanel (.obj fields) = true) :
    lookupField fields "type" = some (.str "panel") := by
  simp only [validatePanel, Bool.and_eq_true] at h
  exact (litStr_iff _ _).mp h.1.1

theorem validateSpinner_tag {fields : List (String × RawValue)}
    (h : validateSpinner (.obj fields) = true) :
    lookupField fields "type" = some (.str "spinner") := by
  simp only [validateSpinner, Bool.and_eq_true] at h
  exact (litStr_iff _ _).mp h.1

theorem validateText_tag {fields : List (String × RawValue)}
    (h : validateText (.obj fields) = true) :
    lookupField fields "type" = some (.str "text") := by
  simp only [validateText, Bool.and_eq_true] at h
  exact (litStr_iff _ _).mp h.1.1

theorem validateButton_tag {fields : List (String × RawValue)}
    (h : validateButton (.obj fields) = true) :
    lookupField fields "type" = some (.str "button") := by
  simp only [validateButton, Bool.and_eq_true] at h
  exact (litStr_iff _ _).mp h.1.1.1.1.1

theorem validateInput_tag {fields : List (String × RawValue)}
    (h : validateInput (.obj fields) = true) :
    lookupField fields "type" = some (.str "input") := by
  simp only [validateInput, Bool.and_eq_true] at h
  exact (litStr_iff _ _).mp h.1.1.1.1.1.1

theorem validateForm_tag {fields : List (String × RawValue)}
    (h : validateForm (.obj fields) = true) :
    lookupField fields "type" = some (.str "form") := by
  simp only [validateForm, Bool.and_eq_true] at h
  exact (litStr_iff _ _).mp h.1.1.1

theorem keysIn_false {fields : List (String × RawValue)} {allowed : List String}
    {k : String} {v : RawValue} (hk : (k, v) ∈ fields)
    (ha : allowed.contains k = false) :
    keysIn fields allowed = false := by
  cases hall : keysIn fields allowed with
  | false => rfl
  | true =>
      exfalso
      rw [keysIn, List.all_eq_true] at hall
      have hkv := hall (k, v) hk
      rw [ha] at hkv
      exact Bool.false_ne_true hkv

theorem validateCopyable_false_keys {fields : List (String × RawValue)}
    (h : keysIn fields ["type", "value"] = false) :
    validateCopyable (.obj fields) = false := by
  simp only [validateCopyable, h, Bool.and_false]

theorem validateDivider_false_keys {fields : List (String × RawValue)}
    (h : keysIn fields ["type"] = false) :
    validateDivider (.obj fields) = false := by
  simp only [validateDivider, h, Bool.and_false]

theorem validateHeading_false_keys {fields : List (String × RawValue)}
    (h : keysIn fields ["type", "value"] = false) :
    validateHeading (.obj fields) = false := by
  simp only [validateHeading, h, Bool.and_false]

theorem validatePanel_false_keys {fields : List (String × RawValue)}
    (h : keysIn fields ["type", "children"] = false) :
    validatePanel (.obj fields) = false := by
  simp only [validatePanel, h, Bool.and_false]

theorem validateSpinner_false_keys {fields : List (String × RawValue)}
    (h : keysIn fields ["type"] = false) :
    validateSpinner (.obj fields) = false := by
  simp only [validateSpinner, h, Bool.and_false]

theorem validateText_false_keys {fields : List (String × RawValue)}
    (h : keysIn fields ["type", "value"] = false) :
    validateText (.obj fields) = false := by
  simp only [validateText, h, Bool.and_false]

theorem validateButton_false_keys {fields : List (String × RawValue)}
    (h : keysIn fields ["type", "value", "variant", "buttonType", "name"] = false) :
    validateButton (.obj fields) = false := by
  simp only [validateButton, h, Bool.and_false]

theorem validateInput_false_keys {fields : List (String × RawValue)}
    (h : keysIn fields ["type", "value", "name", "inputType", "placeholder", "label"]
      = false) :
    validateInput (.obj fields) = false := by
  simp only [validateInput, h, Bool.and_false]

theorem validateForm_false_keys {fields : List (String × RawValue)}
    (h : keysIn fields ["type", "children", "name"] = false) :
    validateForm (.obj fields) = false := by
  simp only [validateForm, h, Bool.and_false]

theorem validator_false_of_tag_ne (f : RawValue → Bool) (tagX : String)
    (htag : ∀ fields, f (.obj fields) = true →
      lookupField fields "type" = some (.str tagX))
    {fields : List (String × RawValue)} {tag : String}
    (htype : lookupField fields "type" = some (.str tag)) (hne : tag ≠ tagX) :
    f (.obj fields) = false := by
  cases hv : f (.obj fields) with
  | false => rfl
  | true =>
      exfalso
      have hx := htag fields hv
      rw [htype] at hx
      injection hx with h1
      injection h1 with h2
      exact hne h2

theorem validator_false_of_extra_key (f : RawValue → Bool) (tagX : String)
    (declX : List String)
    (htag : ∀ fields, f (.obj fields) = true →
      lookupField fields "type" = some (.str tagX))
    (hkeys : ∀ fields, keysIn fields declX = false → f (.obj fields) = false)
    (hcontract : contractKeys tagX = some declX)
    {fields : List (String × RawValue)} {tag : String} {decl : List String}
    {k : String} {v : RawValue}
    (hdecl : contractKeys tag = some decl)
    (htype : lookupField fields "type" = some (.str tag))
    (hk : (k, v) ∈ fields) (hkd : decl.contains k = false) :
    f (.obj fields) = false := by
  by_cases h : tag = tagX
  · subst h
    rw [hdecl] at hcontract
    injection hcontract with h1
    subst h1
    exact hkeys fields (keysIn_false hk hkd)
  · exact validator_false_of_tag_ne f tagX htag htype h

theorem validateForm_children_all {fields : List (String × RawValue)}
    {xs : List RawValue}
    (h : validateForm (.obj fields) = true)
    (hch : lookupField fields "children" = some (.arr xs)) :
    ∀ c ∈ xs, validateFormComponent c = true := by
  simp only [validateForm, hch, Bool.and_eq_true] at h
  exact fun c hc => List.all_eq_true.mp h.1.1.2 c hc

theorem validateForm_false_of_bad_child {fields : List (String × RawValue)}
    {xs : List RawValue} {c : RawValue}
    (hch : lookupField fields "children" = some (.arr xs))
    (hc : c ∈ xs) (hbad : validateFormComponent c = false) :
    validateForm (.obj fields) = false := by
  have hall : xs.all validateFormComponent = false := by
    cases hall : xs.all validateFormComponent with
    | false => rfl
    | true =>
        have := List.all_eq_true.mp hall c hc
        rw [hbad] at this
        exact absurd this Bool.false_ne_true
  simp only [validateForm, hch, hall, Bool.and_false, Bool.false_and]

theorem panel_not_form_component {c : RawValue} (h : validatePanel c = true) :
    validateInput c = false ∧ validateButton c = false := by
  cases c with
  | obj fields =>
      have htype := validatePanel_tag h
      exact ⟨validator_false_of_tag_ne validateInput "input"
          (fun _ hf => validateInput_tag hf) htype (by decide),
        validator_false_of_tag_ne validateButton "button"
          (fun _ hf => validateButton_tag hf) htype (by decide)⟩
  | str s => simp [validatePanel] at h
  | num n => simp [validatePanel] at h
  | bool b => simp [validatePanel] at h
  | null => simp [validatePanel] at h
  | arr xs => simp [validatePanel] at h

/-- C1: For every Form component and every seed `ComponentState`,
`constructState` computes the Form's nested state by folding over the
Form's own children starting from an empty accumulator (not the seed), and
sets it at key `form.name` in the seed; the value stored at `form.name` is
therefore fully replaced — it is the same whatever the seed previously
held there, never a deep merge with it. -/
theorem constructState_form_replaces_prior (state : ComponentState) (n : String)
    (cs : List FormComponent) :
    constructState state (.form n cs)
      = setKey state n
          (.obj (cs.foldl (fun acc c => constructState acc c.toComponent) []))
    ∧ getVal (constructState state (.form n cs)) n
      = some (.obj (cs.foldl (fun acc c => constructState acc c.toComponent) []))
    ∧ ∀ state' : ComponentState,
        getVal (constructState state' (.form n cs)) n
          = getVal (constructState state (.form n cs)) n := by
  have hb : constructFormState [] cs
      = cs.foldl (fun acc c => constructState acc c.toComponent) [] :=
    constructFormState_eq_foldl cs []
  refine ⟨?_, ?_, ?_⟩
  · show setKey state n (.obj (constructFormState [] cs)) = _
    rw [hb]
  · show getVal (setKey state n (.obj (constructFormState [] cs))) n = _
    rw [getVal_setKey_same, hb]
  · intro state'
    show getVal (setKey state' n (.obj (constructFormState [] cs))) n
      = getVal (setKey state n (.obj (constructFormState [] cs))) n
    rw [getVal_setKey_same, getVal_setKey_same]

/-- C2: For every Input whose `value` is omitted, `constructState` sets the
key `input.name` to the empty string (present, never absent); when `value`
is present the key is set to that string verbatim; and validation accepts
an Input object with the `value` field missing. -/
theorem constructState_input_defaults (state : ComponentState) (d : InputData) :
    (d.value = none →
      constructState state (.input d) = setKey state d.name (.str "")
      ∧ getVal (constructState state (.input d)) d.name = some (.str "")
      ∧ hasKey (constructState state (.input d)) d.name = true)
    ∧ (∀ v : String, d.value = some v →
        getVal (constructState state (.input d)) d.name = some (.str v))
    ∧ (∀ n : String,
        validateComponent (.obj [("type", .str "input"), ("name", .str n)])
          = true) := by
  refine ⟨?_, ?_, ?_⟩
  · intro h
    refine ⟨?_, ?_, ?_⟩
    · show setKey state d.name (.str (d.value.getD "")) = _
      rw [h]
      rfl
    · show getVal (setKey state d.name (.str (d.value.getD ""))) d.name = _
      rw [h, getVal_setKey_same]
      rfl
    · show hasKey (setKey state d.name (.str (d.value.getD ""))) d.name = true
      rw [hasKey_setKey, beq_self_eq_true, Bool.or_true]
  · intro v h
    show getVal (setKey state d.name (.str (d.value.getD ""))) d.name = _
    rw [h, getVal_setKey_same]
    rfl
  · intro n
    rfl

/-- C2 witness: a concrete Input with omitted value derives the empty
string at its name. -/
theorem constructState_input_defaults_witness :
    getVal (constructState [] (.input ⟨none, "a", none, none, none⟩)) "a"
      = some (.str "") :=
  ((constructState_input_defaults [] ⟨none, "a", none, none, none⟩).1 rfl).2.1

/-- C3: For every Panel and seed, `constructState` folds over the Panel's
children left to right threading the accumulator; for a Panel with two
Input children sharing a name, the resulting value at that key is the
second child's value. -/
theorem constructState_panel_order (state : ComponentState) (cs : List Component) :
    constructState state (.panel cs) = cs.foldl constructState state
    ∧ ∀ d1 d2 : InputData, d1.name = d2.name →
        getVal (constructState state (.panel [.input d1, .input d2])) d2.name
          = some (.str (d2.value.getD "")) := by
  refine ⟨constructStateList_eq_foldl cs state, ?_⟩
  intro d1 d2 _
  show getVal
      (setKey (setKey state d1.name (.str (d1.value.getD "")))
        d2.name (.str (d2.value.getD ""))) d2.name = _
  rw [getVal_setKey_same]

/-- C3 witness: two same-named Inputs in a Panel; the later one wins. -/
theorem constructState_panel_order_witness :
    getVal (constructState []
        (.panel [.input ⟨some "first", "a", none, none, none⟩,
          .input ⟨some "second", "a", none, none, none⟩])) "a"
      = some (.str "second") :=
  (constructState_panel_order [] []).2
    ⟨some "first", "a", none, none, none⟩
    ⟨some "second", "a", none, none, none⟩ rfl

/-- C4: Deriving a Form into an empty seed yields an accumulator with
exactly the one key `form.name`, whose value is a mapping whose keys are
exactly the names of the Form's Input children; Buttons contribute no
key. -/
theorem constructState_form_empty_seed_keys (n : String)
    (cs : List FormComponent) :
    constructState [] (.form n cs) = [(n, .obj (constructFormState [] cs))]
    ∧ ∀ k : String,
        hasKey (constructFormState [] cs) k = true ↔ k ∈ inputNames cs := by
  refine ⟨rfl, ?_⟩
  intro k
  rw [hasKey_constructFormState cs [] k]
  constructor
  · rintro (h | h)
    · exact absurd h Bool.false_ne_true
    · exact h
  · exact Or.inr

/-- C4 witness: a Form with one Input `a` and one named Button `b` derives
`{f: {a: "x"}}`; `b` is not a key of the nested state. -/
theorem constructState_form_empty_seed_keys_witness :
    constructState []
        (.form "f" [.input ⟨some "x", "a", none, none, none⟩,
          .button ⟨"Go", none, none, some "b"⟩])
      = [("f", .obj [("a", .str "x")])]
    ∧ (hasKey (constructFormState []
          [.input ⟨some "x", "a", none, none, none⟩,
            .button ⟨"Go", none, none, some "b"⟩]) "b" = true
        ↔ "b" ∈ inputNames
            [.input ⟨some "x", "a", none, none, none⟩,
              .button ⟨"Go", none, none, some "b"⟩]) :=
  ⟨(constructState_form_empty_seed_keys "f"
      [.input ⟨some "x", "a", none, none, none⟩,
        .button ⟨"Go", none, none, some "b"⟩]).1,
    (constructState_form_empty_seed_keys "f"
      [.input ⟨some "x", "a", none, none, none⟩,
        .button ⟨"Go", none, none, some "b"⟩]).2 "b"⟩

/-- C7: The reducer only adds or overwrites keys: every key of the seed is
still a key of the output, and a seed key that is not among the Input/Form
names written into the accumulator's scope keeps its seed value. -/
theorem constructState_preserves_seed (c : Component) (state : ComponentState)
    (k : String) :
    (hasKey state k = true → hasKey (constructState state c) k = true)
    ∧ (k ∉ topNames c → getVal (constructState state c) k = getVal state k) :=
  ⟨hasKey_constructState c state k, getVal_constructState_notin c state k⟩

/-- C7 witness: a seed key `z` untouched by the tree keeps its value and
stays present. -/
theorem constructState_preserves_seed_witness :
    hasKey (constructState [("z", .str "q")]
        (.panel [.form "f" [.input ⟨some "x", "a", none, none, none⟩]])) "z" = true
    ∧ getVal (constructState [("z", .str "q")]
        (.panel [.form "f" [.input ⟨some "x", "a", none, none, none⟩]])) "z"
      = some (.str "q") :=
  ⟨(constructState_preserves_seed
      (.panel [.form "f" [.input ⟨some "x", "a", none, none, none⟩]])
      [("z", .str "q")] "z").1 rfl,
    (constructState_preserves_seed
      (.panel [.form "f" [.input ⟨some "x", "a", none, none, none⟩]])
      [("z", .str "q")] "z").2 (by decide)⟩

/-- C8: Divider, Spinner, Copyable, Heading, Text and Button have no state
effect: `constructState` returns the seed unchanged. -/
theorem constructState_passive_kinds (state : ComponentState) :
    (∀ v, constructState state (.copyable v) = state)
    ∧ constructState state .divider = state
    ∧ (∀ v, constructState state (.heading v) = state)
    ∧ constructState state .spinner = state
    ∧ (∀ v, constructState state (.text v) = state)
    ∧ (∀ d, constructState state (.button d) = state) :=
  ⟨fun _ => rfl, rfl, fun _ => rfl, rfl, fun _ => rfl, fun _ => rfl⟩

/-- C5: A valid Form's children each validate as Input or Button
specifically; a valid Panel is neither; and a form-tagged object with a
child that is neither Input nor Button (for example a Panel) fails
`FormStruct` and the whole `ComponentStruct` union — the child is not
dropped. -/
theorem validateForm_children_restricted :
    (∀ (fields : List (String × RawValue)) (xs : List RawValue) (c : RawValue),
      validateForm (.obj fields) = true →
      lookupField fields "children" = some (.arr xs) → c ∈ xs →
      (validateInput c || validateButton c) = true)
    ∧ (∀ c : RawValue, validatePanel c = true →
        validateInput c = false ∧ validateButton c = false)
    ∧ (∀ (fields : List (String × RawValue)) (xs : List RawValue) (c : RawValue),
        lookupField fields "type" = some (.str "form") →
        lookupField fields "children" = some (.arr xs) → c ∈ xs →
        validateInput c = false → validateButton c = false →
        validateForm (.obj fields) = false
          ∧ validateComponent (.obj fields) = false) := by
  refine ⟨?_, ?_, ?_⟩
  · intro fields xs c hf hch hc
    exact validateForm_children_all hf hch c hc
  · exact fun c h => panel_not_form_component h
  · intro fields xs c htype hch hc hi hb
    have hbad : validateFormComponent c = false := by
      rw [validateFormComponent, hi, hb]
      rfl
    have hform := validateForm_false_of_bad_child hch hc hbad
    refine ⟨hform, ?_⟩
    rw [validateComponent_eq,
      validator_false_of_tag_ne validateCopyable "copyable"
        (fun _ h => validateCopyable_tag h) htype (by decide),
      validator_false_of_tag_ne validateDivider "divider"
        (fun _ h => validateDivider_tag h) htype (by decide),
      validator_false_of_tag_ne validateHeading "heading"
        (fun _ h => validateHeading_tag h) htype (by decide),
      validator_false_of_tag_ne validatePanel "panel"
        (fun _ h => validatePanel_tag h) htype (by decide),
      validator_false_of_tag_ne validateSpinner "spinner"
        (fun _ h => validateSpinner_tag h) htype (by decide),
      validator_false_of_tag_ne validateText "text"
        (fun _ h => validateText_tag h) htype (by decide),
      validator_false_of_tag_ne validateButton "button"
        (fun _ h => validateButton_tag h) htype (by decide),
      validator_false_of_tag_ne validateInput "input"
        (fun _ h => validateInput_tag h) htype (by decide),
      hform]
    rfl

/-- C5 witness: a Form whose children contain a Panel fails both
`FormStruct` and the Component union. -/
theorem validateForm_children_restricted_witness :
    validateForm (.obj [("type", .str "form"), ("name", .str "f"),
        ("children", .arr [.obj [("type", .str "panel"), ("children", .arr [])]])])
      = false
    ∧ validateComponent (.obj [("type", .str "form"), ("name", .str "f"),
        ("children", .arr [.obj [("type", .str "panel"), ("children", .arr [])]])])
      = false :=
  validateForm_children_restricted.2.2
    [("type", .str "form"), ("name", .str "f"),
      ("children", .arr [.obj [("type", .str "panel"), ("children", .arr [])]])]
    [.obj [("type", .str "panel"), ("children", .arr [])]]
    (.obj [("type", .str "panel"), ("children", .arr [])])
    rfl rfl (List.mem_cons_self _ _) rfl rfl

/-- C6: The Component union is closed over the nine known tags: an object
whose `type` tag is any other string fails validation. -/
theorem validateComponent_closed_union
    (fields : List (String × RawValue)) (tag : String)
    (htype : lookupField fields "type" = some (.str tag))
    (hmem : tag ∉ componentTags) :
    validateComponent (.obj fields) = false := by
  have hne : ∀ s : String, s ∈ componentTags → tag ≠ s :=
    fun s hs h => hmem (h ▸ hs)
  rw [validateComponent_eq,
    validator_false_of_tag_ne validateCopyable "copyable"
      (fun _ h => validateCopyable_tag h) htype (hne _ (by decide)),
    validator_false_of_tag_ne validateDivider "divider"
      (fun _ h => validateDivider_tag h) htype (hne _ (by decide)),
    validator_false_of_tag_ne validateHeading "heading"
      (fun _ h => validateHeading_tag h) htype (hne _ (by decide)),
    validator_false_of_tag_ne validatePanel "panel"
      (fun _ h => validatePanel_tag h) htype (hne _ (by decide)),
    validator_false_of_tag_ne validateSpinner "spinner"
      (fun _ h => validateSpinner_tag h) htype (hne _ (by decide)),
    validator_false_of_tag_ne validateText "text"
      (fun _ h => validateText_tag h) htype (hne _ (by decide)),
    validator_false_of_tag_ne validateButton "button"
      (fun _ h => validateButton_tag h) htype (hne _ (by decide)),
    validator_false_of_tag_ne validateInput "input"
      (fun _ h => validateInput_tag h) htype (hne _ (by decide)),
    validator_false_of_tag_ne validateForm "form"
      (fun _ h => validateForm_tag h) htype (hne _ (by decide))]
  rfl

/-- C6 witness: `{type: "bogus"}` fails validation. -/
theorem validateComponent_closed_union_witness :
    validateComponent (.obj [("type", .str "bogus")]) = false :=
  validateComponent_closed_union [("type", .str "bogus")] "bogus" rfl (by decide)

/-- C9: An object whose `type` names one of the nine kinds but which
carries a key outside that kind's declared contract fails validation. -/
theorem validateComponent_rejects_extra_fields
    (fields : List (String × RawValue)) (tag : String) (decl : List String)
    (k : String) (v : RawValue)
    (hdecl : contractKeys tag = some decl)
    (htype : lookupField fields "type" = some (.str tag))
    (hk : (k, v) ∈ fields) (hkd : decl.contains k = false) :
    validateComponent (.obj fields) = false := by
  rw [validateComponent_eq,
    validator_false_of_extra_key validateCopyable "copyable" ["type", "value"]
      (fun _ h => validateCopyable_tag h) (fun _ h => validateCopyable_false_keys h)
      rfl hdecl htype hk hkd,
    validator_false_of_extra_key validateDivider "divider" ["type"]
      (fun _ h => validateDivider_tag h) (fun _ h => validateDivider_false_keys h)
      rfl hdecl htype hk hkd,
    validator_false_of_extra_key validateHeading "heading" ["type", "value"]
      (fun _ h => validateHeading_tag h) (fun _ h => validateHeading_false_keys h)
      rfl hdecl htype hk hkd,
    validator_false_of_extra_key validatePanel "panel" ["type", "children"]
      (fun _ h => validatePanel_tag h) (fun _ h => validatePanel_false_keys h)
      rfl hdecl htype hk hkd,
    validator_false_of_extra_key validateSpinner "spinner" ["type"]
      (fun _ h => validateSpinner_tag h) (fun _ h => validateSpinner_false_keys h)
      rfl hdecl htype hk hkd,
    validator_false_of_extra_key validateText "text" ["type", "value"]
      (fun _ h => validateText_tag h) (fun _ h => validateText_false_keys h)
      rfl hdecl htype hk hkd,
    validator_false_of_extra_key validateButton "button"
      ["type", "value", "variant", "buttonType", "name"]
      (fun _ h => validateButton_tag h) (fun _ h => validateButton_false_keys h)
      rfl hdecl htype hk hkd,
    validator_false_of_extra_key validateInput "input"
      ["type", "value", "name", "inputType", "placeholder", "label"]
      (fun _ h => validateInput_tag h) (fun _ h => validateInput_false_keys h)
      rfl hdecl htype hk hkd,
    validator_false_of_extra_key validateForm "form" ["type", "children", "name"]
      (fun _ h => validateForm_tag h) (fun _ h => validateForm_false_keys h)
      rfl hdecl htype hk hkd]
  rfl

/-- C9 witness: a divider carrying a `value` field is rejected. -/
theorem validateComponent_rejects_extra_fields_witness :
    validateComponent (.obj [("type", .str "divider"), ("value", .str "x")])
      = false :=
  validateComponent_rejects_extra_fields
    [("type", .str "divider"), ("value", .str "x")] "divider" ["type"]
    "value" (.str "x") rfl rfl
    (List.mem_cons_of_mem _ (List.mem_cons_self _ _)) rfl

end Snaps
